import Mathlib

attribute [local semireducible] Rat.mul Rat.add Rat.sub Rat.inv

/-!
Verification of the collaborative-filtering recommendation engine
(`collaborative_filtering.py`): a shallow embedding of the ratings matrix,
the cosine-similarity `fit` step, the user-based and item-based rating
predictors, and the top-N recommenders, together with theorems checking the
specified behaviour (fallback policies, weighted-average formulas, range,
symmetry, cold-start totality).

Ratings are embedded as rationals.  The square-root function used by cosine
similarity is a parameter (`sqrt`): the theorems about prediction structure
hold for every choice of it, and concrete counterexamples instantiate it
with `ratSqrt`, which agrees with the true square root on every value that
the concrete matrices produce (all of them perfect squares).
-/

namespace AnimeRec

/-- A user-item ratings matrix, as produced by the pivot step: a row index
(`users`), a column index (`items`), and the cell values (`rating`), where 0
means "unrated".  Mirrors the pandas DataFrame `user_item_matrix`. -/
structure RatingsMatrix where
  users : List Int
  items : List Int
  rating : Int → Int → ℚ

/-- Row vector of a user: ratings across all items, in column order. -/
def RatingsMatrix.row (m : RatingsMatrix) (u : Int) : List ℚ :=
  m.items.map (m.rating u)

/-- Column vector of an item: ratings across all users, in row order. -/
def RatingsMatrix.col (m : RatingsMatrix) (i : Int) : List ℚ :=
  m.users.map (fun v => m.rating v i)

/-- Dot product of two equal-length vectors. -/
def dotList (u v : List ℚ) : ℚ :=
  (List.zipWith (· * ·) u v).sum

/-- Arithmetic mean of a list (pandas `.mean`); 0 on the empty list. -/
def meanList (l : List ℚ) : ℚ :=
  l.sum / (l.length : ℚ)

/-- Cosine similarity `dot(u,v) / (|u| * |v|)`, parametrized by the square
root function; a zero-norm vector (zero self-dot) yields similarity 0, the
behaviour of sklearn `cosine_similarity` via `normalize`. -/
def cosineSim (sqrt : ℚ → ℚ) (u v : List ℚ) : ℚ :=
  if dotList u u = 0 ∨ dotList v v = 0 then 0
  else dotList u v / (sqrt (dotList u u) * sqrt (dotList v v))

/-- The model state built by `fit`: the (copied) ratings matrix, both
similarity matrices, and the per-user / per-item mean ratings. -/
structure FitState where
  matrix : RatingsMatrix
  userSim : Int → Int → ℚ
  itemSim : Int → Int → ℚ
  meanUser : Int → ℚ
  meanItem : Int → ℚ

/-- `fit`: computes mean ratings of rows and columns, the user-user cosine
similarity matrix of the rows and the item-item cosine similarity matrix of
the columns (`CollaborativeFilteringRecommender.fit`). -/
def fit (sqrt : ℚ → ℚ) (m : RatingsMatrix) : FitState :=
  { matrix := m
    userSim := fun a b => cosineSim sqrt (m.row a) (m.row b)
    itemSim := fun a b => cosineSim sqrt (m.col a) (m.col b)
    meanUser := fun u => meanList (m.row u)
    meanItem := fun i => meanList (m.col i) }

/-- Stable descending sort by a rational key (pandas `sort_values` with
`ascending=False` / Python `list.sort` with `reverse=True`). -/
def sortDescBy {α : Type} (key : α → ℚ) (l : List α) : List α :=
  List.insertionSort (fun a b => key b ≤ key a) l

/-- The qualifying neighbors of user `u`: similarities of all other users to
`u` (the column `u` of the user similarity matrix with `u` dropped), with
non-positive similarities discarded, sorted descending, first `k` kept
(`predict_user_based` lines 66-67). -/
def userNeighbors (st : FitState) (u : Int) (k : Nat) : List (Int × ℚ) :=
  let cands := (st.matrix.users.filter (fun v => v ≠ u)).map (fun v => (v, st.userSim v u))
  (sortDescBy (fun p => p.2) (cands.filter (fun p => 0 < p.2))).take k

/-- `predict_user_based`: cold-start fallbacks, then a mean-centered
weighted average over the qualifying neighbors that rated the item, clamped
to `[1, 10]`. -/
def predictUserBased (st : FitState) (u i : Int) (k : Nat) : ℚ :=
  if u ∉ st.matrix.users then
    (if i ∈ st.matrix.items then st.meanItem i else 0)
  else if i ∉ st.matrix.items then
    (if u ∈ st.matrix.users then st.meanUser u else 0)
  else
    let topk := userNeighbors st u k
    if topk.isEmpty then st.meanItem i
    else
      let nd := topk.foldl (fun (nd : ℚ × ℚ) p =>
        if 0 < st.matrix.rating p.1 i then
          (nd.1 + p.2 * (st.matrix.rating p.1 i - st.meanUser p.1), nd.2 + |p.2|)
        else nd) (0, 0)
      if nd.2 = 0 then st.meanUser u
      else max 1 (min 10 (st.meanUser u + nd.1 / nd.2))

/-- The qualifying neighbor items for predicting item `i` for user `u`:
similarities to `i` of the items `u` has rated, with non-positive values
discarded, sorted descending, first `k` kept (`predict_item_based` lines
100-109). -/
def itemNeighbors (st : FitState) (u i : Int) (k : Nat) : List (Int × ℚ) :=
  let ratedItems := st.matrix.items.filter (fun j => 0 < st.matrix.rating u j)
  let cands := ratedItems.map (fun j => (j, st.itemSim j i))
  (sortDescBy (fun p => p.2) (cands.filter (fun p => 0 < p.2))).take k

/-- `predict_item_based`: cold-start fallbacks, then a weighted average of
the user's ratings over similar items, without mean-centering, clamped to
`[1, 10]`. -/
def predictItemBased (st : FitState) (u i : Int) (k : Nat) : ℚ :=
  if u ∉ st.matrix.users then
    (if i ∈ st.matrix.items then st.meanItem i else 0)
  else if i ∉ st.matrix.items then
    (if u ∈ st.matrix.users then st.meanUser u else 0)
  else
    let ratedItems := st.matrix.items.filter (fun j => 0 < st.matrix.rating u j)
    if ratedItems.isEmpty then st.meanItem i
    else
      let topk := itemNeighbors st u i k
      if topk.isEmpty then st.meanItem i
      else
        let nd := topk.foldl (fun (nd : ℚ × ℚ) p =>
          (nd.1 + p.2 * st.matrix.rating u p.1, nd.2 + |p.2|)) (0, 0)
        if nd.2 = 0 then st.meanItem i
        else max 1 (min 10 (nd.1 / nd.2))

/-- `_get_popular_recommendations`: items sorted by mean rating descending,
first `n`, each paired with its display name and mean rating. -/
def getPopularRecommendations (st : FitState) (nameOf : Int → String) (n : Nat) :
    List (Int × String × ℚ) :=
  let popular := (sortDescBy (fun p => p.2) (st.matrix.items.map (fun j => (j, st.meanItem j)))).take n
  popular.map (fun p => (p.1, nameOf p.1, p.2))

/-- `recommend_user_based`: popularity fallback for an unknown user,
otherwise predictions for every unrated item, sorted descending by
predicted score, first `n`. -/
def recommendUserBased (st : FitState) (nameOf : Int → String) (u : Int) (n k : Nat) :
    List (Int × String × ℚ) :=
  if u ∉ st.matrix.users then getPopularRecommendations st nameOf n
  else
    let unrated := st.matrix.items.filter (fun j => st.matrix.rating u j = 0)
    let recs := unrated.map (fun j => (j, nameOf j, predictUserBased st u j k))
    (sortDescBy (fun r => r.2.2) recs).take n

/-- `recommend_item_based`: same shape as `recommendUserBased` with the
item-based predictor. -/
def recommendItemBased (st : FitState) (nameOf : Int → String) (u : Int) (n k : Nat) :
    List (Int × String × ℚ) :=
  if u ∉ st.matrix.users then getPopularRecommendations st nameOf n
  else
    let unrated := st.matrix.items.filter (fun j => st.matrix.rating u j = 0)
    let recs := unrated.map (fun j => (j, nameOf j, predictItemBased st u j k))
    (sortDescBy (fun r => r.2.2) recs).take n

/-- A Python-level error raised by a query. -/
inductive PyError
  | attributeError (msg : String)
  | notFittedError
deriving DecidableEq

/-- The recommender object: the injected name lookup and the fitted state,
`none` right after `__init__` (all matrices are `None`). -/
structure Recommender where
  nameOf : Int → String
  fitted : Option FitState

/-- `__init__`: no fitted state yet. -/
def initRecommender (nameOf : Int → String) : Recommender :=
  { nameOf := nameOf, fitted := none }

/-- Calling `fit` on the object replaces the derived state and touches
nothing else; the pair models that the caller keeps its matrix, which `fit`
reads through a copy and never mutates. -/
def fitCall (sqrt : ℚ → ℚ) (r : Recommender) (m : RatingsMatrix) :
    Recommender × RatingsMatrix :=
  ({ r with fitted := some (fit sqrt m) }, m)

/-- `get_similar_users`: empty list for an unknown user, otherwise the
similarities of all other users to `u`, sorted descending, first `n`
(lines 183-193; no positivity filter here). -/
def getSimilarUsers (st : FitState) (u : Int) (n : Nat) : List (Int × ℚ) :=
  if u ∉ st.matrix.users then []
  else
    let sims := (st.matrix.users.filter (fun v => v ≠ u)).map (fun v => (v, st.userSim v u))
    (sortDescBy (fun p => p.2) sims).take n

/-- `get_similar_anime`: empty list for an unknown item, otherwise the
similarities of all other items to `i`, sorted descending, first `n`, each
paired with its display name (lines 195-211). -/
def getSimilarAnime (st : FitState) (nameOf : Int → String) (i : Int) (n : Nat) :
    List (Int × String × ℚ) :=
  if i ∉ st.matrix.items then []
  else
    let sims := (st.matrix.items.filter (fun j => j ≠ i)).map (fun j => (j, st.itemSim j i))
    ((sortDescBy (fun p => p.2) sims).take n).map (fun p => (p.1, nameOf p.1, p.2))

/-- A `predict_user_based` query on the object: before `fit`, the matrices
are `None` and the `user_id not in self.user_item_matrix.index` test raises
`AttributeError` on `None`. -/
def predictUserBasedQuery (r : Recommender) (u i : Int) (k : Nat) : Except PyError ℚ :=
  match r.fitted with
  | none => Except.error (PyError.attributeError "NoneType object has no attribute index")
  | some st => Except.ok (predictUserBased st u i k)

/-- A `predict_item_based` query on the object: the same `None.index`
dereference (line 93) raises `AttributeError` before `fit`. -/
def predictItemBasedQuery (r : Recommender) (u i : Int) (k : Nat) : Except PyError ℚ :=
  match r.fitted with
  | none => Except.error (PyError.attributeError "NoneType object has no attribute index")
  | some st => Except.ok (predictItemBased st u i k)

/-- A `recommend_user_based` query on the object: line 132 dereferences
`self.user_item_matrix.index` on `None` before `fit`. -/
def recommendUserBasedQuery (r : Recommender) (u : Int) (n k : Nat) :
    Except PyError (List (Int × String × ℚ)) :=
  match r.fitted with
  | none => Except.error (PyError.attributeError "NoneType object has no attribute index")
  | some st => Except.ok (recommendUserBased st r.nameOf u n k)

/-- A `recommend_item_based` query on the object: line 153 dereferences
`self.user_item_matrix.index` on `None` before `fit`. -/
def recommendItemBasedQuery (r : Recommender) (u : Int) (n k : Nat) :
    Except PyError (List (Int × String × ℚ)) :=
  match r.fitted with
  | none => Except.error (PyError.attributeError "NoneType object has no attribute index")
  | some st => Except.ok (recommendItemBased st r.nameOf u n k)

/-- A `get_similar_users` query on the object: line 187 dereferences
`self.user_similarity_matrix.index` on `None` before `fit`. -/
def getSimilarUsersQuery (r : Recommender) (u : Int) (n : Nat) :
    Except PyError (List (Int × ℚ)) :=
  match r.fitted with
  | none => Except.error (PyError.attributeError "NoneType object has no attribute index")
  | some st => Except.ok (getSimilarUsers st u n)

/-- A `get_similar_anime` query on the object: line 199 dereferences
`self.item_similarity_matrix.index` on `None` before `fit`. -/
def getSimilarAnimeQuery (r : Recommender) (i : Int) (n : Nat) :
    Except PyError (List (Int × String × ℚ)) :=
  match r.fitted with
  | none => Except.error (PyError.attributeError "NoneType object has no attribute index")
  | some st => Except.ok (getSimilarAnime st r.nameOf i n)

/-- The qualifying neighbors of `u` that rated item `i` (rating strictly
positive), the set the user-based weighted average ranges over. -/
def ratersOf (st : FitState) (u i : Int) (k : Nat) : List (Int × ℚ) :=
  (userNeighbors st u k).filter (fun p => 0 < st.matrix.rating p.1 i)

/-- Spec formula: `numerator = Σ sim(u, n) * (rating(n, item) - mean(n))`
over neighbors `n` that rated the item. -/
def userBasedNumer (st : FitState) (u i : Int) (k : Nat) : ℚ :=
  ((ratersOf st u i k).map (fun p => p.2 * (st.matrix.rating p.1 i - st.meanUser p.1))).sum

/-- Spec formula: `denominator = Σ |sim(u, n)|` over neighbors `n` that
rated the item. -/
def userBasedDenom (st : FitState) (u i : Int) (k : Nat) : ℚ :=
  ((ratersOf st u i k).map (fun p => |p.2|)).sum

/-- Spec formula: `numerator = Σ sim(item, n) * rating(u, n)` over the kept
item neighbors (no mean-centering). -/
def itemBasedNumer (st : FitState) (u i : Int) (k : Nat) : ℚ :=
  ((itemNeighbors st u i k).map (fun p => p.2 * st.matrix.rating u p.1)).sum

/-- Spec formula: `denominator = Σ |sim(item, n)|` over the kept item
neighbors. -/
def itemBasedDenom (st : FitState) (u i : Int) (k : Nat) : ℚ :=
  ((itemNeighbors st u i k).map (fun p => |p.2|)).sum

/-- Exact square root, rounded down, computed structurally so that concrete
instances reduce: the largest `k ≤ n` with `k * k ≤ n`. -/
def natSqrtBelow (n : Nat) : Nat :=
  ((List.range (n + 1)).filter (fun k => k * k ≤ n)).length - 1

/-- A concrete square-root function for instantiating `fit`; it agrees with
the true square root whenever numerator and denominator are perfect squares,
which holds for every value the concrete matrices below feed it. -/
def ratSqrt (q : ℚ) : ℚ :=
  mkRat (Int.ofNat (natSqrtBelow q.num.toNat)) (natSqrtBelow q.den)

/-- Concrete 2-user, 2-item matrix: user 1 rated item 1 with 4, user 2
rated item 1 with 3, nobody rated item 2.  Every vector norm that `fit`
computes on it is a perfect square (16, 9, 25), so `ratSqrt` coincides with
the true square root throughout. -/
def matCE : RatingsMatrix :=
  { users := [1, 2]
    items := [1, 2]
    rating := fun u i =>
      if u = 1 ∧ i = 1 then 4 else if u = 2 ∧ i = 1 then 3 else 0 }

/-- The fitted model on `matCE`. -/
def stCE : FitState := fit ratSqrt matCE

/-- Concrete 2-user, 2-item matrix with a qualifying neighbor that rated
the target item: user 1 rated item 2 with 3, user 2 rated item 1 with 4 and
item 2 with 3. -/
def matW : RatingsMatrix :=
  { users := [1, 2]
    items := [1, 2]
    rating := fun u i =>
      if u = 1 ∧ i = 2 then 3
      else if u = 2 ∧ i = 1 then 4
      else if u = 2 ∧ i = 2 then 3 else 0 }

/-- The fitted model on `matW`. -/
def stW : FitState := fit ratSqrt matW

/-- A concrete display-name lookup. -/
def nameOfCE : Int → String := fun _ => "Anime"

theorem dotList_comm (u v : List ℚ) : dotList u v = dotList v u := by
  unfold dotList
  rw [List.zipWith_comm_of_comm (· * ·) mul_comm]

theorem cosineSim_comm (sqrt : ℚ → ℚ) (u v : List ℚ) :
    cosineSim sqrt u v = cosineSim sqrt v u := by
  unfold cosineSim
  by_cases h1 : dotList u u = 0
  · by_cases h2 : dotList v v = 0 <;> simp [h1, h2]
  · by_cases h2 : dotList v v = 0
    · simp [h1, h2]
    · rw [if_neg (by tauto), if_neg (by tauto), dotList_comm u v,
        mul_comm (sqrt (dotList u u)) (sqrt (dotList v v))]

theorem sortDescBy_perm {α : Type} (key : α → ℚ) (l : List α) :
    List.Perm (sortDescBy key l) l :=
  List.perm_insertionSort _ l

theorem sortDescBy_sorted {α : Type} (key : α → ℚ) (l : List α) :
    List.Sorted (fun a b => key b ≤ key a) (sortDescBy key l) := by
  haveI h1 : IsTotal α (fun a b => key b ≤ key a) := ⟨fun a b => le_total (key b) (key a)⟩
  haveI h2 : IsTrans α (fun a b => key b ≤ key a) := ⟨fun a b c hab hbc => le_trans hbc hab⟩
  exact List.sorted_insertionSort _ l

theorem foldl_filter_pair {α : Type} (P : α → Prop) [DecidablePred P]
    (f g : α → ℚ) (l : List α) (a b : ℚ) :
    l.foldl (fun nd p => if P p then (nd.1 + f p, nd.2 + g p) else nd) (a, b)
      = (a + ((l.filter (fun p => P p)).map f).sum,
         b + ((l.filter (fun p => P p)).map g).sum) := by
  induction l generalizing a b with
  | nil => simp
  | cons x xs ih =>
    by_cases h : P x
    · have hd : decide (P x) = true := decide_eq_true h
      simp only [List.foldl_cons, List.filter_cons, hd, if_pos h, if_true,
        List.map_cons, List.sum_cons, ih, Prod.mk.injEq]
      constructor <;> ring
    · have hd : decide (P x) = false := decide_eq_false h
      simp only [List.foldl_cons, List.filter_cons, hd, if_neg h,
        List.map_cons, List.sum_cons, ih, Bool.false_eq_true, if_false]

theorem foldl_pair {α : Type} (f g : α → ℚ) (l : List α) (a b : ℚ) :
    l.foldl (fun nd p => (nd.1 + f p, nd.2 + g p)) (a, b)
      = (a + (l.map f).sum, b + (l.map g).sum) := by
  induction l generalizing a b with
  | nil => simp
  | cons x xs ih =>
    simp only [List.foldl_cons, List.map_cons, List.sum_cons, ih, Prod.mk.injEq]
    constructor <;> ring

theorem mem_userNeighbors_pos (st : FitState) (u : Int) (k : Nat) (p : Int × ℚ)
    (hp : p ∈ userNeighbors st u k) : 0 < p.2 := by
  simp only [userNeighbors] at hp
  have h1 := (List.take_sublist _ _).subset hp
  have h2 := (sortDescBy_perm _ _).mem_iff.mp h1
  have h3 := (List.mem_filter.mp h2).2
  exact of_decide_eq_true h3

theorem mem_itemNeighbors_pos (st : FitState) (u i : Int) (k : Nat) (p : Int × ℚ)
    (hp : p ∈ itemNeighbors st u i k) : 0 < p.2 := by
  simp only [itemNeighbors] at hp
  have h1 := (List.take_sublist _ _).subset hp
  have h2 := (sortDescBy_perm _ _).mem_iff.mp h1
  have h3 := (List.mem_filter.mp h2).2
  exact of_decide_eq_true h3

theorem absSum_pos {l : List (Int × ℚ)} (hpos : ∀ p ∈ l, 0 < p.2) (hne : l ≠ []) :
    0 < (l.map (fun p => |p.2|)).sum := by
  apply List.sum_pos
  · intro x hx
    obtain ⟨p, hp, rfl⟩ := List.mem_map.mp hx
    exact abs_pos.mpr (ne_of_gt (hpos p hp))
  · simpa using hne

theorem meanList_bounds (l : List ℚ) (h0 : ∀ x ∈ l, 0 ≤ x) (h10 : ∀ x ∈ l, x ≤ 10) :
    0 ≤ meanList l ∧ meanList l ≤ 10 := by
  unfold meanList
  rcases eq_or_ne l [] with rfl | hne
  · simp
  · have hlen : 0 < (l.length : ℚ) := by
      exact_mod_cast List.length_pos.mpr hne
    constructor
    · exact div_nonneg (List.sum_nonneg h0) hlen.le
    · rw [div_le_iff₀ hlen]
      calc l.sum ≤ l.length • (10 : ℚ) := List.sum_le_card_nsmul l 10 h10
        _ = 10 * l.length := by rw [nsmul_eq_mul]; ring

theorem clamp_bounds (x : ℚ) : 1 ≤ max 1 (min 10 x) ∧ max 1 (min 10 x) ≤ 10 :=
  ⟨le_max_left _ _, max_le (by norm_num) (min_le_left _ _)⟩

theorem sortDescBy_nil {α : Type} (key : α → ℚ) : sortDescBy key [] = [] := rfl

theorem itemNeighbors_nil (st : FitState) (u i : Int) (k : Nat)
    (h : st.matrix.items.filter (fun j => 0 < st.matrix.rating u j) = []) :
    itemNeighbors st u i k = [] := by
  simp [itemNeighbors, h, sortDescBy_nil]

theorem userBased_known (st : FitState) (u i : Int) (k : Nat)
    (hu : u ∈ st.matrix.users) (hi : i ∈ st.matrix.items) :
    predictUserBased st u i k =
      (if userNeighbors st u k = [] then st.meanItem i
       else if userBasedDenom st u i k = 0 then st.meanUser u
       else max 1 (min 10 (st.meanUser u + userBasedNumer st u i k / userBasedDenom st u i k))) := by
  have hfold : List.foldl
      (fun (nd : ℚ × ℚ) p =>
        if 0 < st.matrix.rating p.1 i then
          (nd.1 + p.2 * (st.matrix.rating p.1 i - st.meanUser p.1), nd.2 + |p.2|)
        else nd) (0, 0) (userNeighbors st u k)
      = (userBasedNumer st u i k, userBasedDenom st u i k) := by
    have h := foldl_filter_pair (fun p : Int × ℚ => 0 < st.matrix.rating p.1 i)
      (fun p => p.2 * (st.matrix.rating p.1 i - st.meanUser p.1))
      (fun p => |p.2|) (userNeighbors st u k) 0 0
    simpa [userBasedNumer, userBasedDenom, ratersOf] using h
  simp only [predictUserBased, hu, hi, not_true, if_false, List.isEmpty_eq_true, hfold]

theorem itemBased_known (st : FitState) (u i : Int) (k : Nat)
    (hu : u ∈ st.matrix.users) (hi : i ∈ st.matrix.items) :
    predictItemBased st u i k =
      (if itemNeighbors st u i k = [] then st.meanItem i
       else if itemBasedDenom st u i k = 0 then st.meanItem i
       else max 1 (min 10 (itemBasedNumer st u i k / itemBasedDenom st u i k))) := by
  have hfold : List.foldl
      (fun (nd : ℚ × ℚ) p => (nd.1 + p.2 * st.matrix.rating u p.1, nd.2 + |p.2|))
      (0, 0) (itemNeighbors st u i k)
      = (itemBasedNumer st u i k, itemBasedDenom st u i k) := by
    have h := foldl_pair (fun p : Int × ℚ => p.2 * st.matrix.rating u p.1)
      (fun p => |p.2|) (itemNeighbors st u i k) 0 0
    simpa [itemBasedNumer, itemBasedDenom] using h
  by_cases hrated : st.matrix.items.filter (fun j => 0 < st.matrix.rating u j) = []
  · have hn := itemNeighbors_nil st u i k hrated
    simp [predictItemBased, hu, hi, hrated, hn]
  · simp only [predictItemBased, hu, hi, not_true, if_false, List.isEmpty_eq_true, hrated,
      hfold]

/-- C8: for every fitted model and every pair of entities, the user
similarity matrix and the item similarity matrix are symmetric:
`sim(a, b) = sim(b, a)`. -/
theorem similarity_symmetric (sqrt : ℚ → ℚ) (m : RatingsMatrix) (a b : Int) :
    (fit sqrt m).userSim a b = (fit sqrt m).userSim b a ∧
    (fit sqrt m).itemSim a b = (fit sqrt m).itemSim b a :=
  ⟨cosineSim_comm sqrt (m.row a) (m.row b), cosineSim_comm sqrt (m.col a) (m.col b)⟩

/-- C9: calling `fit` leaves the caller's ratings matrix unchanged (it is
read through a copy and never mutated), and its only effect is to rebuild
the derived state of the recommender (similarity matrices and means) from
that input matrix, leaving the other field (the data-loader name lookup)
untouched. -/
theorem fit_no_mutation (sqrt : ℚ → ℚ) (r : Recommender) (m : RatingsMatrix) :
    (fitCall sqrt r m).2 = m ∧
    (fitCall sqrt r m).1.nameOf = r.nameOf ∧
    (fitCall sqrt r m).1.fitted = some (fit sqrt m) ∧
    (fit sqrt m).matrix = m :=
  ⟨rfl, rfl, rfl, rfl⟩

/-- C10: for an unknown user both recommenders return exactly the same
list, the popularity fallback, so the strategy argument is irrelevant. -/
theorem recommend_strategies_agree_unknown (st : FitState) (nameOf : Int → String)
    (u : Int) (n k : Nat) (hu : u ∉ st.matrix.users) :
    recommendUserBased st nameOf u n k = recommendItemBased st nameOf u n k := by
  unfold recommendUserBased recommendItemBased
  rw [if_pos hu, if_pos hu]

/-- C10 witness: concrete unknown user 99 on the fitted model `stCE`. -/
theorem recommend_strategies_agree_unknown_witness :
    recommendUserBased stCE nameOfCE 99 2 20 = recommendItemBased stCE nameOfCE 99 2 20 :=
  recommend_strategies_agree_unknown stCE nameOfCE 99 2 20 (by decide)

/-- C5: predict (either strategy) is total on the cold-start region: an
unknown user with a known item gives the item mean, a known user with an
unknown item gives the user mean, and a doubly-unknown pair gives the 0
sentinel. -/
theorem predict_coldstart_total (st : FitState) (u i : Int) (k : Nat)
    (h : u ∉ st.matrix.users ∨ i ∉ st.matrix.items) :
    predictUserBased st u i k =
      (if i ∈ st.matrix.items then st.meanItem i
       else if u ∈ st.matrix.users then st.meanUser u else 0) ∧
    predictItemBased st u i k =
      (if i ∈ st.matrix.items then st.meanItem i
       else if u ∈ st.matrix.users then st.meanUser u else 0) := by
  rcases h with hu | hi
  · by_cases hi2 : i ∈ st.matrix.items <;>
      exact ⟨by simp [predictUserBased, hu, hi2], by simp [predictItemBased, hu, hi2]⟩
  · by_cases hu2 : u ∈ st.matrix.users <;>
      exact ⟨by simp [predictUserBased, hu2, hi], by simp [predictItemBased, hu2, hi]⟩

/-- C5 witness: unknown user 99 with known item 1 on `stCE`: both
strategies give the item mean. -/
theorem predict_coldstart_total_witness :
    predictUserBased stCE 99 1 20 =
      (if (1 : Int) ∈ stCE.matrix.items then stCE.meanItem 1
       else if (99 : Int) ∈ stCE.matrix.users then stCE.meanUser 99 else 0) ∧
    predictItemBased stCE 99 1 20 =
      (if (1 : Int) ∈ stCE.matrix.items then stCE.meanItem 1
       else if (99 : Int) ∈ stCE.matrix.users then stCE.meanUser 99 else 0) :=
  predict_coldstart_total stCE 99 1 20 (Or.inl (by decide))

/-- C6: for an unknown user, `recommend_user_based` returns exactly the
popularity fallback computed from the mean item ratings: it equals
`_get_popular_recommendations`, has at most `topN` entries, is sorted by
score descending, and each entry carries an item of the matrix scored with
its mean rating. -/
theorem recommend_unknown_popularity (st : FitState) (nameOf : Int → String)
    (u : Int) (n k : Nat) (hu : u ∉ st.matrix.users) :
    recommendUserBased st nameOf u n k = getPopularRecommendations st nameOf n ∧
    (recommendUserBased st nameOf u n k).length ≤ n ∧
    List.Sorted (fun a b => b.2.2 ≤ a.2.2) (recommendUserBased st nameOf u n k) ∧
    (∀ r ∈ recommendUserBased st nameOf u n k,
      r.1 ∈ st.matrix.items ∧ r.2.2 = st.meanItem r.1) := by
  have heq : recommendUserBased st nameOf u n k = getPopularRecommendations st nameOf n := by
    unfold recommendUserBased
    rw [if_pos hu]
  refine ⟨heq, ?_, ?_, ?_⟩
  · rw [heq]
    simp only [getPopularRecommendations, List.length_map, List.length_take]
    exact min_le_left _ _
  · rw [heq]
    simp only [getPopularRecommendations]
    exact List.pairwise_map.mpr
      (List.Pairwise.sublist (List.take_sublist _ _) (sortDescBy_sorted _ _))
  · intro r hr
    rw [heq] at hr
    simp only [getPopularRecommendations] at hr
    obtain ⟨p, hp, rfl⟩ := List.mem_map.mp hr
    have h1 := (List.take_sublist _ _).subset hp
    have h2 := (sortDescBy_perm _ _).mem_iff.mp h1
    obtain ⟨j, hj, rfl⟩ := List.mem_map.mp h2
    exact ⟨hj, rfl⟩

/-- C6 witness: unknown user 99 on `stCE` gets the popularity list. -/
theorem recommend_unknown_popularity_witness :
    recommendUserBased stCE nameOfCE 99 2 20 = getPopularRecommendations stCE nameOfCE 2 :=
  (recommend_unknown_popularity stCE nameOfCE 99 2 20 (by decide)).1

/-- C7 counterexample: on the freshly constructed recommender, on which
`fit` was never called, every exposed query — predict (both strategies),
recommend (both strategies), and both similar-entity lookups — fails with
the generic `AttributeError` that Python raises for `None.index`, which is
not a distinct not-fitted error. -/
theorem notFitted_counterexample :
    (predictUserBasedQuery (initRecommender nameOfCE) 1 1 20 =
        Except.error (PyError.attributeError "NoneType object has no attribute index") ∧
      predictItemBasedQuery (initRecommender nameOfCE) 1 1 20 =
        Except.error (PyError.attributeError "NoneType object has no attribute index") ∧
      recommendUserBasedQuery (initRecommender nameOfCE) 1 10 20 =
        Except.error (PyError.attributeError "NoneType object has no attribute index") ∧
      recommendItemBasedQuery (initRecommender nameOfCE) 1 10 20 =
        Except.error (PyError.attributeError "NoneType object has no attribute index") ∧
      getSimilarUsersQuery (initRecommender nameOfCE) 1 10 =
        Except.error (PyError.attributeError "NoneType object has no attribute index") ∧
      getSimilarAnimeQuery (initRecommender nameOfCE) 1 10 =
        Except.error (PyError.attributeError "NoneType object has no attribute index")) ∧
    PyError.attributeError "NoneType object has no attribute index" ≠
      PyError.notFittedError :=
  ⟨⟨rfl, rfl, rfl, rfl, rfl, rfl⟩, by intro h; exact PyError.noConfusion h⟩

/-- C1 counterexample: on the fitted model `stCE`, user 1 and item 2 are
both known, the qualifying neighbor list is the nonempty `[(2, 1)]`, no
qualifying neighbor rated item 2 — and `predict_user_based` returns the
user mean 2, not the item mean 0. -/
theorem userBased_noRater_counterexample :
    ((1 : Int) ∈ stCE.matrix.users ∧ (2 : Int) ∈ stCE.matrix.items ∧
      userNeighbors stCE 1 20 ≠ [] ∧
      (∀ p ∈ userNeighbors stCE 1 20, ¬ 0 < stCE.matrix.rating p.1 2)) ∧
    predictUserBased stCE 1 2 20 = 2 ∧ stCE.meanItem 2 = 0 ∧
    predictUserBased stCE 1 2 20 ≠ stCE.meanItem 2 := by
  decide

/-- C1 (amended): for a known user and known item, if the qualifying
top-k neighbor list is empty the item mean is returned, but if qualifying
neighbors exist and none of them rated the item, the USER mean is returned
(denominator-zero fallback), not the item mean. -/
theorem userBased_noRater_fallback (st : FitState) (u i : Int) (k : Nat)
    (hu : u ∈ st.matrix.users) (hi : i ∈ st.matrix.items) :
    (userNeighbors st u k = [] → predictUserBased st u i k = st.meanItem i) ∧
    (userNeighbors st u k ≠ [] →
      (∀ p ∈ userNeighbors st u k, ¬ 0 < st.matrix.rating p.1 i) →
      predictUserBased st u i k = st.meanUser u) := by
  rw [userBased_known st u i k hu hi]
  constructor
  · intro h
    rw [if_pos h]
  · intro hne hno
    have hraters : ratersOf st u i k = [] := by
      simp only [ratersOf, List.filter_eq_nil_iff]
      intro p hp
      simpa using hno p hp
    have hden : userBasedDenom st u i k = 0 := by
      simp [userBasedDenom, hraters]
    rw [if_neg hne, if_pos hden]

/-- C1 (amended) witness: on `stCE`, neighbors exist, none rated item 2,
and the prediction is the user mean. -/
theorem userBased_noRater_fallback_witness :
    predictUserBased stCE 1 2 20 = stCE.meanUser 1 :=
  (userBased_noRater_fallback stCE 1 2 20 (by decide) (by decide)).2
    (by decide) (by decide)

/-- C2 counterexample: on the fitted model `stCE`, user 1 and item 2 are
both known, yet `predict_item_based` returns 0, outside `[1, 10]`: the
mean fallbacks are not clamped, and 0 escapes for an item nobody rated. -/
theorem predictRange_counterexample :
    (1 : Int) ∈ stCE.matrix.users ∧ (2 : Int) ∈ stCE.matrix.items ∧
    predictItemBased stCE 1 2 20 = 0 ∧ ¬ (1 ≤ predictItemBased stCE 1 2 20) := by
  decide

/-- C2 (amended): on a fitted model whose ratings all lie in `[0, 10]`,
every prediction of either strategy lies in `[0, 10]`: the weighted-average
path is clamped to `[1, 10]`, but the mean fallbacks are returned unclamped
and can be as low as 0 (the doubly-unknown sentinel is also 0). -/
theorem predict_range (sqrt : ℚ → ℚ) (m : RatingsMatrix)
    (hr : ∀ u i, 0 ≤ m.rating u i ∧ m.rating u i ≤ 10) (u i : Int) (k : Nat) :
    (0 ≤ predictUserBased (fit sqrt m) u i k ∧ predictUserBased (fit sqrt m) u i k ≤ 10) ∧
    (0 ≤ predictItemBased (fit sqrt m) u i k ∧ predictItemBased (fit sqrt m) u i k ≤ 10) := by
  have hmu : ∀ v, 0 ≤ (fit sqrt m).meanUser v ∧ (fit sqrt m).meanUser v ≤ 10 := by
    intro v
    refine meanList_bounds (m.row v) ?_ ?_ <;> intro x hx <;>
      obtain ⟨j, hj, rfl⟩ := List.mem_map.mp hx
    · exact (hr v j).1
    · exact (hr v j).2
  have hmi : ∀ j, 0 ≤ (fit sqrt m).meanItem j ∧ (fit sqrt m).meanItem j ≤ 10 := by
    intro j
    refine meanList_bounds (m.col j) ?_ ?_ <;> intro x hx <;>
      obtain ⟨v, hv, rfl⟩ := List.mem_map.mp hx
    · exact (hr v j).1
    · exact (hr v j).2
  have hcl : ∀ x : ℚ, 0 ≤ max 1 (min 10 x) ∧ max 1 (min 10 x) ≤ 10 := fun x =>
    ⟨le_trans (by norm_num) (clamp_bounds x).1, (clamp_bounds x).2⟩
  have hzero : (0 : ℚ) ≤ 0 ∧ (0 : ℚ) ≤ 10 := by norm_num
  by_cases hu2 : u ∈ (fit sqrt m).matrix.users
  · by_cases hi2 : i ∈ (fit sqrt m).matrix.items
    · constructor
      · rw [userBased_known (fit sqrt m) u i k hu2 hi2]
        by_cases h1 : userNeighbors (fit sqrt m) u k = []
        · rw [if_pos h1]; exact hmi i
        · rw [if_neg h1]
          by_cases h2 : userBasedDenom (fit sqrt m) u i k = 0
          · rw [if_pos h2]; exact hmu u
          · rw [if_neg h2]; exact hcl _
      · rw [itemBased_known (fit sqrt m) u i k hu2 hi2]
        by_cases h1 : itemNeighbors (fit sqrt m) u i k = []
        · rw [if_pos h1]; exact hmi i
        · rw [if_neg h1]
          by_cases h2 : itemBasedDenom (fit sqrt m) u i k = 0
          · rw [if_pos h2]; exact hmi i
          · rw [if_neg h2]; exact hcl _
    · constructor
      · simpa [predictUserBased, hu2, hi2] using hmu u
      · simpa [predictItemBased, hu2, hi2] using hmu u
  · by_cases hi2 : i ∈ (fit sqrt m).matrix.items
    · constructor
      · simpa [predictUserBased, hu2, hi2] using hmi i
      · simpa [predictItemBased, hu2, hi2] using hmi i
    · constructor
      · simp [predictUserBased, hu2, hi2]
      · simp [predictItemBased, hu2, hi2]

/-- C2 (amended) witness: the bound instantiated on the fitted model of the
all-in-range matrix `matCE` at the known pair (1, 1). -/
theorem predict_range_witness :
    (0 ≤ predictUserBased (fit ratSqrt matCE) 1 1 20 ∧
      predictUserBased (fit ratSqrt matCE) 1 1 20 ≤ 10) ∧
    (0 ≤ predictItemBased (fit ratSqrt matCE) 1 1 20 ∧
      predictItemBased (fit ratSqrt matCE) 1 1 20 ≤ 10) :=
  predict_range ratSqrt matCE
    (by
      intro u i
      simp only [matCE]
      split_ifs <;> norm_num)
    1 1 20

/-- C3: for a known user and known item with a nonempty qualifying
neighbor list, if some qualifying neighbor rated the item the prediction is
`mean(u) + (Σ sim * (rating - mean(n))) / (Σ |sim|)` over the neighbors
that rated the item, clamped to `[1, 10]`; and if the denominator is 0 the
prediction is the user mean. -/
theorem userBased_weighted_formula (st : FitState) (u i : Int) (k : Nat)
    (hu : u ∈ st.matrix.users) (hi : i ∈ st.matrix.items)
    (hne : userNeighbors st u k ≠ []) :
    ((∃ p ∈ userNeighbors st u k, 0 < st.matrix.rating p.1 i) →
      predictUserBased st u i k =
        max 1 (min 10 (st.meanUser u + userBasedNumer st u i k / userBasedDenom st u i k))) ∧
    (userBasedDenom st u i k = 0 → predictUserBased st u i k = st.meanUser u) := by
  rw [userBased_known st u i k hu hi, if_neg hne]
  constructor
  · rintro ⟨p, hp, hrate⟩
    have hpr : p ∈ ratersOf st u i k := by
      simp only [ratersOf, List.mem_filter]
      exact ⟨hp, decide_eq_true hrate⟩
    have hden : 0 < userBasedDenom st u i k := by
      unfold userBasedDenom
      refine absSum_pos ?_ ?_
      · intro q hq
        exact mem_userNeighbors_pos st u k q (List.mem_of_mem_filter hq)
      · intro h0
        rw [h0] at hpr
        exact absurd hpr (List.not_mem_nil p)
    rw [if_neg (ne_of_gt hden)]
  · intro hden
    rw [if_pos hden]

/-- C3 witness: on `stW`, user 2 is a qualifying neighbor of user 1 that
rated item 1, and the prediction follows the clamped centered formula. -/
theorem userBased_weighted_formula_witness :
    predictUserBased stW 1 1 20 =
      max 1 (min 10 (stW.meanUser 1 + userBasedNumer stW 1 1 20 / userBasedDenom stW 1 1 20)) :=
  (userBased_weighted_formula stW 1 1 20 (by decide) (by decide) (by decide)).1 (by decide)

/-- C4: for a known user and known item, the candidate neighbors are the
items the user rated, non-positive similarities discarded, top-k kept; if
that list is empty the item mean is returned, otherwise the prediction is
`(Σ sim * rating) / (Σ |sim|)` without mean-centering, clamped to
`[1, 10]`. -/
theorem itemBased_weighted_formula (st : FitState) (u i : Int) (k : Nat)
    (hu : u ∈ st.matrix.users) (hi : i ∈ st.matrix.items) :
    (itemNeighbors st u i k = [] → predictItemBased st u i k = st.meanItem i) ∧
    (itemNeighbors st u i k ≠ [] →
      predictItemBased st u i k =
        max 1 (min 10 (itemBasedNumer st u i k / itemBasedDenom st u i k))) := by
  rw [itemBased_known st u i k hu hi]
  constructor
  · intro h
    rw [if_pos h]
  · intro hne
    have hden : 0 < itemBasedDenom st u i k := by
      unfold itemBasedDenom
      exact absSum_pos (fun p hp => mem_itemNeighbors_pos st u i k p hp) hne
    rw [if_neg hne, if_neg (ne_of_gt hden)]

/-- C4 witness: on `stW`, predicting item 1 for user 1 uses the single
rated neighbor item 2 and follows the clamped uncentered formula. -/
theorem itemBased_weighted_formula_witness :
    predictItemBased stW 1 1 20 =
      max 1 (min 10 (itemBasedNumer stW 1 1 20 / itemBasedDenom stW 1 1 20)) :=
  (itemBased_weighted_formula stW 1 1 20 (by decide) (by decide)).2 (by decide)

/-- C7 (amended): querying predict (either strategy), recommend (either
strategy), or a similar-entity operation before `fit` has ever been called
never silently returns a value: each query fails, but with the same
generic `AttributeError` coming from the `None` matrix, not with a
distinct not-fitted error. -/
theorem notFitted_query_behavior (nameOf : Int → String) (u i : Int) (n k : Nat) :
    (predictUserBasedQuery (initRecommender nameOf) u i k =
        Except.error (PyError.attributeError "NoneType object has no attribute index") ∧
      predictItemBasedQuery (initRecommender nameOf) u i k =
        Except.error (PyError.attributeError "NoneType object has no attribute index") ∧
      recommendUserBasedQuery (initRecommender nameOf) u n k =
        Except.error (PyError.attributeError "NoneType object has no attribute index") ∧
      recommendItemBasedQuery (initRecommender nameOf) u n k =
        Except.error (PyError.attributeError "NoneType object has no attribute index") ∧
      getSimilarUsersQuery (initRecommender nameOf) u n =
        Except.error (PyError.attributeError "NoneType object has no attribute index") ∧
      getSimilarAnimeQuery (initRecommender nameOf) i n =
        Except.error (PyError.attributeError "NoneType object has no attribute index")) ∧
    PyError.attributeError "NoneType object has no attribute index" ≠
      PyError.notFittedError :=
  ⟨⟨rfl, rfl, rfl, rfl, rfl, rfl⟩, by intro h; exact PyError.noConfusion h⟩

end AnimeRec
